import Mathlib

/-!
Shallow embedding of the `cdaas` deployer pipeline orchestrator
(`deployer/management/commands/watch_repos.py`) together with the pieces of
`deployer/models.py` and `deployer/utils.py` that the orchestrator uses.

External processes (git, docker, kubectl), the filesystem and the database are
modelled explicitly: every external invocation's outcome is an input (a
`RunEnv`), and every observable effect (record creation, record saves, tool
invocations, temp-file lifecycle) is recorded in an event trace.
-/

/-! ## Python string primitives -/

/-- Python `\s` for the default `str.strip()` / `\s` character class:
space, tab, newline, carriage return, form feed, vertical tab. -/
def isPySpace (c : Char) : Bool :=
  c = ' ' || c = '\t' || c = '\n' || c = '\r' || c.toNat = 12 || c.toNat = 11

/-- Python `str.strip()` with default (whitespace) argument. -/
def pyStrip (s : String) : String :=
  String.mk (((s.toList.dropWhile isPySpace).reverse.dropWhile isPySpace).reverse)

/-- Python `str.rstrip('/')`. -/
def pyRstripSlash (s : String) : String :=
  String.mk ((s.toList.reverse.dropWhile (fun c => c = '/')).reverse)

/-- Python `a or b` for two strings (`a` if non-empty, else `b`). -/
def pyOrS (a b : String) : String := if a = "" then b else a

/-- Python `a or b` where `a : str | None` and `b : str`. -/
def pyOrOpt (a : Option String) (b : String) : String :=
  match a with
  | none => b
  | some s => if s = "" then b else s

/-- Python truthiness of a `str | None` value. -/
def truthy : Option String → Bool
  | none => false
  | some s => s != ""

/-- Python `s.startswith(p)`. -/
def strStarts (s p : String) : Bool := p.toList.isPrefixOf s.toList

/-- The tail of `l` after the first occurrence of `sep`, if `sep` occurs. -/
def afterFirst (sep : List Char) : List Char → Option (List Char)
  | [] => if sep = [] then some [] else none
  | c :: cs =>
    if sep.isPrefixOf (c :: cs) then some ((c :: cs).drop sep.length)
    else afterFirst sep cs

/-- Python `s.split(sep, 1)[1]` (only used under a guard that `sep` occurs;
returns `s` unchanged when it does not). -/
def pySplitOnceTail (sep s : String) : String :=
  match afterFirst sep.toList s.toList with
  | some rest => String.mk rest
  | none => s

/-- Python `"\n".join(filter(None, xs))`. -/
def joinNL (xs : List String) : String :=
  String.intercalate "\n" (xs.filter (fun s => s ≠ ""))

/-! ## django.utils.text.slugify (ASCII fragment)

`slugify(value)` (with `allow_unicode=False`) NFKD-normalizes and ASCII-encodes
with errors ignored, lowercases, deletes every character that is not
alphanumeric, underscore, whitespace or hyphen, collapses runs of hyphens and
whitespace to a single hyphen, and strips leading/trailing `-`/`_`.
The unicode-normalization step is modelled as dropping non-ASCII characters
(exact for ASCII inputs, which is all the source and claims exercise). -/

/-- Collapse each run of hyphen/whitespace characters into a single `'-'`
(Python `re.sub(r"[-\s]+", "-", value)`). -/
def collapseDashSpace (l : List Char) : List Char :=
  l.foldr
    (fun c acc =>
      if c = '-' || isPySpace c then
        match acc with
        | '-' :: _ => acc
        | _ => '-' :: acc
      else c :: acc)
    []

/-- `slugify` on character lists. -/
def slugifyL (l : List Char) : List Char :=
  let ascii := l.filter (fun c => c.toNat < 128)
  let lower := ascii.map Char.toLower
  let kept := lower.filter (fun c => c.isAlphanum || c = '_' || c = '-' || isPySpace c)
  let collapsed := collapseDashSpace kept
  (((collapsed.dropWhile (fun c => c = '-' || c = '_')).reverse.dropWhile
      (fun c => c = '-' || c = '_')).reverse)

/-- `django.utils.text.slugify` on strings. -/
def slugify (s : String) : String := String.mk (slugifyL s.toList)

/-! ## Data model

`deployer/models.py` declares `Repository`, `Build` and `Deployment`.
The orchestrator additionally reads/writes `Repository.last_revision` and
`Build.commit` (and `Build.id`, the auto primary key); those fields are
modelled from the spec's data model (§3: Repository carries a nullable
`last_revision`; Build carries the VCS revision it ran against), since the
persistence layer is an external collaborator in the spec's scoping. -/

structure Repository where
  pk : Nat
  name : String
  url : String
  branch : String
  username : Option String
  password : Option String
  nexus_registry : Option String
  nexus_repository : Option String
  nexus_username : Option String
  nexus_password : Option String
  kubernetes_namespace : String
  kubeconfig : Option String
  last_revision : Option String
deriving DecidableEq, Repr

structure Build where
  id : Nat
  status : String
  commit : Option String
  image : Option String
  log : String
deriving DecidableEq, Repr

structure Deployment where
  kubernetes_namespace : String
  status : String
deriving DecidableEq, Repr

/-- `Repository.registry_domain` (models.py lines 35-42). -/
def Repository.registry_domain (self : Repository) : String :=
  if !truthy self.nexus_registry then ""
  else
    let value := pyRstripSlash (pyStrip (self.nexus_registry.getD ""))
    if strStarts value "http://" || strStarts value "https://" then
      pySplitOnceTail "://" value
    else value

/-! ## External-process model -/

/-- Captured result of one `subprocess.run` call. -/
structure ProcResult where
  returncode : Int
  stdout : String
  stderr : String
deriving DecidableEq, Repr

/-- Outcome of attempting to launch an external tool: the executable may be
missing (`FileNotFoundError`) or run to completion. -/
inductive ToolRun where
  | notFound
  | ran (r : ProcResult)
deriving DecidableEq, Repr

/-- The external tools the orchestrator invokes. -/
inductive Tool where
  | gitClone
  | gitRevParse
  | dockerLogin
  | dockerBuild
  | dockerPush
  | kubectlApply
deriving DecidableEq, Repr

/-- The two ephemeral files created by `_deploy_to_cluster`. -/
inductive TmpKind where
  | manifestFile
  | kubeconfigFile
deriving DecidableEq, Repr

/-- Observable effects of one repository run, in order of occurrence. -/
inductive Event where
  | runTool (t : Tool)
  | createBuild (status : String) (commit : Option String)
  | createDeployment (status : String)
  | saveDeployment (status : String)
  | createTmpFile (k : TmpKind)
  | removeTmpFile (k : TmpKind)
  | removeWorkspace
  | writeManifest (ok : Bool)
  | saveBuild (status : String)
  | saveRepoLastRevision (rev : String)
deriving DecidableEq, Repr

/-- All external inputs of one repository run: results of each external
invocation the run may attempt, the detected framework, whether a Dockerfile
already exists in the workspace, whether the manifest export succeeds, and
the primary key the database assigns to a created Build. -/
structure RunEnv where
  clone : ProcResult
  revParse : ProcResult
  framework : String
  dockerfileExists : Bool
  login : ToolRun
  buildImg : ToolRun
  push : ToolRun
  applyK : ToolRun
  manifestOk : Bool
  buildId : Nat
deriving DecidableEq, Repr

/-! ## deployer/utils.py -/

/-- Join path segments with `'/'`. -/
def joinSlashL : List (List Char) → List Char
  | [] => []
  | [s] => s
  | s :: rest => s ++ '/' :: joinSlashL rest

/-- Split a character list on `'/'`. -/
def splitOnSlash (l : List Char) : List (List Char) :=
  l.foldr
    (fun c acc =>
      match acc with
      | [] => if c = '/' then [[], []] else [[c]]
      | cur :: rest => if c = '/' then [] :: cur :: rest else (c :: cur) :: rest)
    [[]]

/-- Modelled from the spec: `extract_repo_slug` is imported from
`deployer.utils` by `watch_repos.py` but its definition is missing from
`src/deployer/utils.py`.  Per the spec (§4.3 step 2 and §8) it derives a slug
from the VCS URL's path — e.g. `https://git.example.com/org/myapp.git` yields
`org/myapp` — and yields nothing when no usable path component exists: the
scheme and host are dropped, a trailing `.git` is dropped, each path segment
is slugified, and the non-empty segments are joined with `/`. -/
def repoSlugSegs (url : String) : List (List Char) :=
  let cs := url.toList
  let rest := match afterFirst "://".toList cs with
    | some r => r
    | none => cs
  let path := match afterFirst ['/'] rest with
    | some p => p
    | none => []
  let path := ((path.dropWhile (fun c => c = '/')).reverse.dropWhile
      (fun c => c = '/')).reverse
  let path :=
    if path.length ≥ 4 ∧ path.drop (path.length - 4) = ".git".toList then
      path.take (path.length - 4)
    else path
  ((splitOnSlash path).map slugifyL).filter (fun s => s ≠ [])

def extract_repo_slug (url : String) : Option String :=
  if repoSlugSegs url = [] then none
  else some (String.mk (joinSlashL (repoSlugSegs url)))

/-- The slug used by `write_repository_manifest` (utils.py line 85) for the
manifest file name. -/
def manifestSlug (repo : Repository) : String :=
  pyOrS (slugify repo.name) ("repository-" ++ toString repo.pk)

/-- Path of the manifest artifact written by `write_repository_manifest`
(utils.py lines 83-86), relative to the Django `BASE_DIR`.  The manifest's
textual content is not modelled (no claim depends on it). -/
def manifestPath (repo : Repository) : String :=
  "deployer_manifests/" ++ manifestSlug repo ++ ".yaml"

/-! ## watch_repos.py: helper methods of `Command` -/

/-- `Command._normalize_registry` (watch_repos.py lines 255-262). -/
def Command._normalize_registry (registry : Option String) : String :=
  if !truthy registry then ""
  else
    let value := pyRstripSlash (pyStrip (registry.getD ""))
    if strStarts value "http://" || strStarts value "https://" then
      pySplitOnceTail "://" value
    else value

/-- `Command._get_head_revision` (watch_repos.py lines 264-270), applied to
the captured result of `git rev-parse HEAD`. -/
def Command._get_head_revision (p : ProcResult) : Except String String :=
  if p.returncode ≠ 0 then
    Except.error (pyOrS (pyStrip p.stderr) "Unable to determine repository revision.")
  else Except.ok (pyStrip p.stdout)

/-- The repository/project name resolution inside `Command._build_and_push_image`
(watch_repos.py lines 146-152). -/
def Command.resolve_repository_name (repo : Repository) : String :=
  let repository_name := pyStrip (repo.nexus_repository.getD "")
  if repository_name = "" then
    match extract_repo_slug repo.url with
    | some derived_slug => derived_slug
    | none => pyOrS (slugify repo.name) ("repository-" ++ toString repo.pk)
  else repository_name

/-- The image tag computation inside `Command._build_and_push_image`
(watch_repos.py line 154): `(build.commit or str(build.id))[:12]`. -/
def Command.image_tag (commit : Option String) (buildId : Nat) : String :=
  (pyOrOpt commit (toString buildId)).take 12

/-- `Command._build_and_push_image` (watch_repos.py lines 140-196):
returns the events it emits (tool invocations, in order) and either the
raised failure message or `(image_reference, combined_output)`. -/
def Command._build_and_push_image (repo : Repository) (commit : Option String)
    (env : RunEnv) : List Event × Except String (String × String) :=
  let registry := Command._normalize_registry repo.nexus_registry
  if registry = "" then ([], Except.error "Nexus registry is empty.")
  else
    let repository_name := Command.resolve_repository_name repo
    let tag := Command.image_tag commit env.buildId
    let image_reference := registry ++ "/" ++ repository_name ++ ":" ++ tag
    let loginStep : List Event × Except String (List String) :=
      if truthy repo.nexus_username && truthy repo.nexus_password then
        match env.login with
        | ToolRun.notFound =>
          ([Event.runTool Tool.dockerLogin],
           Except.error "Docker CLI not found. Ensure Docker is installed.")
        | ToolRun.ran p =>
          if p.returncode ≠ 0 then
            ([Event.runTool Tool.dockerLogin],
             Except.error (pyOrS (pyStrip p.stderr) "Docker login failed."))
          else ([Event.runTool Tool.dockerLogin], Except.ok [pyStrip p.stdout])
      else ([], Except.ok [])
    match loginStep with
    | (ev1, Except.error e) => (ev1, Except.error e)
    | (ev1, Except.ok outs0) =>
      match env.buildImg with
      | ToolRun.notFound =>
        (ev1 ++ [Event.runTool Tool.dockerBuild],
         Except.error "Docker CLI not found. Ensure Docker is installed.")
      | ToolRun.ran p =>
        if p.returncode ≠ 0 then
          (ev1 ++ [Event.runTool Tool.dockerBuild],
           Except.error (pyOrS (pyStrip p.stderr) "Docker build failed."))
        else
          let outs1 := outs0 ++ [pyStrip p.stdout]
          -- the push call has no FileNotFoundError handler (lines 189-193):
          -- a missing executable propagates as the interpreter's own message
          match env.push with
          | ToolRun.notFound =>
            (ev1 ++ [Event.runTool Tool.dockerBuild, Event.runTool Tool.dockerPush],
             Except.error "[Errno 2] No such file or directory: 'docker'")
          | ToolRun.ran q =>
            if q.returncode ≠ 0 then
              (ev1 ++ [Event.runTool Tool.dockerBuild, Event.runTool Tool.dockerPush],
               Except.error (pyOrS (pyStrip q.stderr) "Docker push failed."))
            else
              let outs := outs1 ++ [pyStrip q.stdout]
              (ev1 ++ [Event.runTool Tool.dockerBuild, Event.runTool Tool.dockerPush],
               Except.ok (image_reference, pyStrip (joinNL outs)))

/-- `Command._deploy_to_cluster` (watch_repos.py lines 198-253):
returns the events it emits (temp-file lifecycle and the kubectl invocation,
in order) and either the raised failure message or the result message.
The rendered manifest text is not modelled (no claim depends on it). -/
def Command._deploy_to_cluster (repo : Repository) (env : RunEnv) :
    List Event × Except String String :=
  let kubeconfig_body := pyStrip (repo.kubeconfig.getD "")
  if kubeconfig_body = "" then
    ([], Except.error "Repository does not have a kubeconfig configured.")
  else
    let ns := pyOrS repo.kubernetes_namespace "default"
    let evs := [Event.createTmpFile TmpKind.manifestFile,
                Event.createTmpFile TmpKind.kubeconfigFile,
                Event.runTool Tool.kubectlApply,
                Event.removeTmpFile TmpKind.manifestFile,
                Event.removeTmpFile TmpKind.kubeconfigFile]
    match env.applyK with
    | ToolRun.notFound =>
      (evs, Except.error "kubectl not found. Ensure the Kubernetes CLI is installed.")
    | ToolRun.ran p =>
      if p.returncode ≠ 0 then
        (evs, Except.error (pyOrS (pyStrip p.stderr) "kubectl apply failed."))
      else
        (evs, Except.ok (pyOrS (pyStrip p.stdout)
          ("Kubectl applied manifest for namespace " ++ ns ++ ".")))

/-! ## watch_repos.py: `Command.handle` -/

/-- How the `try` body of one loop iteration of `Command.handle`
(watch_repos.py lines 37-109) exits: via the `continue` at line 54, normally,
or via a raised exception (carrying the Build created so far, the revision
resolved so far, and the exception's message). -/
inductive BodyOutcome where
  | skipped (logs : List String) (evs : List Event)
  | ok (logs : List String) (evs : List Event) (b : Build)
  | failed (logs : List String) (evs : List Event) (b : Option Build)
      (commit : Option String) (excMsg : String)
deriving DecidableEq, Repr

/-- The deploy-and-succeed tail of the `try` body (watch_repos.py lines
87-109), entered once the image stage has finished. -/
def Command.afterImage (repo : Repository) (env : RunEnv) (logs : List String)
    (evs : List Event) (b : Build) (image_reference : Option String) :
    BodyOutcome :=
  if image_reference.isSome && truthy repo.kubeconfig then
    let evs := evs ++ [Event.createDeployment "running"]
    match Command._deploy_to_cluster repo env with
    | (evD, Except.ok deploy_msg) =>
      BodyOutcome.ok (logs ++ [deploy_msg])
        (evs ++ evD ++ [Event.saveDeployment "success"]) { b with status := "success" }
    | (evD, Except.error e) =>
      BodyOutcome.failed (logs ++ ["Kubernetes deployment failed: " ++ e])
        (evs ++ evD ++ [Event.saveDeployment "failed"]) (some b) b.commit e
  else if !truthy repo.kubeconfig then
    BodyOutcome.ok (logs ++ ["No kubeconfig configured; skipping Kubernetes deployment."])
      evs { b with status := "success" }
  else
    BodyOutcome.ok (logs ++ ["Image not available; skipping deployment."])
      evs { b with status := "success" }

/-- The `try` body of one loop iteration of `Command.handle`
(watch_repos.py lines 37-109). -/
def Command.body (repo : Repository) (env : RunEnv) : BodyOutcome :=
  let logs := ["Git URL: " ++ repo.url, "Branch: " ++ repo.branch,
               "Cloning repository..."]
  let evs := [Event.runTool Tool.gitClone]
  if env.clone.returncode ≠ 0 then
    let error_msg := pyOrS (pyStrip env.clone.stderr) (pyStrip env.clone.stdout)
    BodyOutcome.failed (logs ++ ["Failed to clone repository: " ++ error_msg])
      evs none none "Clone failed"
  else
    let logs := logs ++ ["Repository cloned successfully."]
    let evs := evs ++ [Event.runTool Tool.gitRevParse]
    match Command._get_head_revision env.revParse with
    | Except.error e => BodyOutcome.failed logs evs none none e
    | Except.ok current_revision =>
      let logs := logs ++ ["Latest commit: " ++ current_revision]
      if truthy repo.last_revision && repo.last_revision.getD "" == current_revision then
        BodyOutcome.skipped logs evs
      else
        let b : Build := { id := env.buildId, status := "running",
                           commit := some current_revision, image := none, log := "" }
        let evs := evs ++ [Event.createBuild "running" (some current_revision)]
        let logs := ("Started build for " ++ repo.name ++ " (commit " ++
                       current_revision ++ ")") :: logs
        let logs := logs ++ ["Detected framework: " ++ env.framework]
        let logs := logs ++
          (if env.dockerfileExists then ["Dockerfile already present; no changes made."]
           else ["Dockerfile created automatically."])
        if truthy repo.nexus_registry &&
            (truthy repo.nexus_repository || repo.name != "") then
          match Command._build_and_push_image repo b.commit env with
          | (evI, Except.error e) =>
            BodyOutcome.failed (logs ++ ["Image build/push failed: " ++ e])
              (evs ++ evI) (some b) b.commit e
          | (evI, Except.ok (image_reference, output)) =>
            let b := { b with image := some image_reference }
            let logs := logs ++ ["Image pushed to " ++ image_reference] ++
              (if output ≠ "" then [output] else [])
            Command.afterImage repo env logs (evs ++ evI) b (some image_reference)
        else
          Command.afterImage repo env
            (logs ++ ["Nexus registry or repository missing; skipping image push."])
            evs b none

/-- Observable outcome of one loop iteration of `Command.handle`. -/
structure RunResult where
  trace : List Event
  repoAfter : Repository
  buildAfter : Option Build
deriving DecidableEq, Repr

/-- The `finally` block of one loop iteration (watch_repos.py lines 120-138),
entered with a Build in hand (i.e. on every path except the unchanged-skip). -/
def Command.finalize (repo : Repository) (env : RunEnv) (logs : List String)
    (evs : List Event) (b : Build) : RunResult :=
  let evs := evs ++ [Event.removeWorkspace]
  let (logs, evs) :=
    if env.manifestOk then
      (logs ++ ["Manifest exported to " ++ manifestPath repo],
       evs ++ [Event.writeManifest true])
    else
      -- the raised exception's text is opaque; only the fact of failure matters
      (logs ++ ["Failed to write manifest."], evs ++ [Event.writeManifest false])
  let b := { b with log := pyStrip (joinNL logs) }
  let evs := evs ++ [Event.saveBuild b.status]
  if b.status = "success" && truthy b.commit then
    let rev := b.commit.getD ""
    { trace := evs ++ [Event.saveRepoLastRevision rev],
      repoAfter := { repo with last_revision := some rev },
      buildAfter := some b }
  else
    { trace := evs, repoAfter := repo, buildAfter := some b }

/-- One loop iteration of `Command.handle` (watch_repos.py lines 27-138):
the `try` body, the `except` handler (lines 110-119) and the `finally`
block (lines 120-138). -/
def Command.processRepo (repo : Repository) (env : RunEnv) : RunResult :=
  match Command.body repo env with
  | BodyOutcome.skipped _ evs =>
    { trace := evs ++ [Event.removeWorkspace], repoAfter := repo, buildAfter := none }
  | BodyOutcome.ok logs evs b => Command.finalize repo env logs evs b
  | BodyOutcome.failed logs evs b? commit excMsg =>
    let logs := logs ++ ["Pipeline terminated: " ++ excMsg]
    match b? with
    | some b => Command.finalize repo env logs evs { b with status := "failed" }
    | none =>
      Command.finalize repo env logs
        (evs ++ [Event.createBuild "failed" commit])
        { id := env.buildId, status := "failed", commit := commit,
          image := none, log := "" }

/-- `Command.handle` (watch_repos.py lines 25-138): iterate over all stored
repositories, processing each one in sequence. -/
def Command.handle : List (Repository × RunEnv) → List RunResult
  | [] => []
  | (repo, env) :: rest => Command.processRepo repo env :: Command.handle rest

/-! ## Helper lemmas -/

lemma afterFirst_http (rest : List Char) :
    afterFirst [':', '/', '/'] (['h', 't', 't', 'p', ':', '/', '/'] ++ rest) = some rest := by
  simp [afterFirst, List.isPrefixOf]

lemma afterFirst_https (rest : List Char) :
    afterFirst [':', '/', '/'] (['h', 't', 't', 'p', 's', ':', '/', '/'] ++ rest) = some rest := by
  simp [afterFirst, List.isPrefixOf]

lemma strStarts_exists {v p : String} (h : strStarts v p = true) :
    ∃ rest, v.toList = p.toList ++ rest := by
  unfold strStarts at h
  rcases List.isPrefixOf_iff_prefix.mp h with ⟨rest, hrest⟩
  exact ⟨rest, hrest.symm⟩

lemma pySplitOnceTail_http {v : String} (h : strStarts v "http://" = true) :
    pySplitOnceTail "://" v = String.mk (v.toList.drop 7) := by
  rcases strStarts_exists h with ⟨rest, hv⟩
  unfold pySplitOnceTail
  rw [show ("://".toList) = [':', '/', '/'] from rfl, hv,
    show ("http://".toList) = ['h', 't', 't', 'p', ':', '/', '/'] from rfl,
    afterFirst_http]
  simp

lemma pySplitOnceTail_https {v : String} (h : strStarts v "https://" = true) :
    pySplitOnceTail "://" v = String.mk (v.toList.drop 8) := by
  rcases strStarts_exists h with ⟨rest, hv⟩
  unfold pySplitOnceTail
  rw [show ("://".toList) = [':', '/', '/'] from rfl, hv,
    show ("https://".toList) = ['h', 't', 't', 'p', 's', ':', '/', '/'] from rfl,
    afterFirst_https]
  simp

/-- C7: registry-host normalization strips surrounding whitespace, then any
trailing slashes, then one leading `http://` / `https://` scheme (exactly the
scheme characters) if present; `reg.example.com/` and `https://reg.example.com`
both normalize to `reg.example.com`. -/
theorem C7_normalize_registry :
    Command._normalize_registry (some "reg.example.com/") = "reg.example.com" ∧
    Command._normalize_registry (some "https://reg.example.com") = "reg.example.com" ∧
    (∀ s : String, Command._normalize_registry (some s) =
      (let v := pyRstripSlash (pyStrip s)
       if strStarts v "http://" = true then String.mk (v.toList.drop 7)
       else if strStarts v "https://" = true then String.mk (v.toList.drop 8)
       else v)) := by
  refine ⟨by decide, by decide, ?_⟩
  intro s
  show Command._normalize_registry (some s) = _
  unfold Command._normalize_registry
  by_cases hs : s = ""
  · subst hs; decide
  · simp only [truthy, Option.getD]
    rw [if_neg (by simp [hs])]
    by_cases h1 : strStarts (pyRstripSlash (pyStrip s)) "http://" = true
    · simp [h1, pySplitOnceTail_http h1]
    · by_cases h2 : strStarts (pyRstripSlash (pyStrip s)) "https://" = true
      · simp [h1, h2, pySplitOnceTail_https h2]
      · simp [h1, h2]

/-- C10: the orchestrator's `Command._normalize_registry` and the model
property `Repository.registry_domain` compute the same registry host for
every repository (the two scheme/slash-stripping implementations are
extensionally equal). -/
theorem C10_registry_equiv :
    ∀ repo : Repository,
      Command._normalize_registry repo.nexus_registry = repo.registry_domain := by
  intro repo
  rfl

/-- C8: with a resolved revision the image tag is the revision's first 12
characters (`abcdef1234567890` yields `abcdef123456`); with no revision known
(commit `None` or empty) the tag falls back to the build's own identifier
(its decimal form, which the 12-character cut leaves intact whenever it has
at most 12 digits). -/
theorem C8_image_tag :
    ∀ (rev : String) (bid : Nat),
      (rev ≠ "" → Command.image_tag (some rev) bid = rev.take 12) ∧
      Command.image_tag none bid = (toString bid).take 12 ∧
      Command.image_tag (some "") bid = (toString bid).take 12 ∧
      ((toString bid).length ≤ 12 → Command.image_tag none bid = toString bid) ∧
      Command.image_tag (some "abcdef1234567890") bid = "abcdef123456" := by
  intro rev bid
  refine ⟨?_, rfl, rfl, ?_, ?_⟩
  · intro h
    simp [Command.image_tag, pyOrOpt, h]
  · intro h
    simp only [Command.image_tag, pyOrOpt, String.take_eq]
    exact congrArg String.mk (List.take_of_length_le h)
  · simp only [Command.image_tag, pyOrOpt]
    rw [if_neg (by decide), String.take_eq]
    rfl

theorem C8_image_tag_witness :
    ("abcdef1234567890" ≠ "" →
      Command.image_tag (some "abcdef1234567890") 7 = "abcdef1234567890".take 12) ∧
    Command.image_tag none 7 = (toString 7).take 12 ∧
    Command.image_tag (some "") 7 = (toString 7).take 12 ∧
    ((toString 7).length ≤ 12 → Command.image_tag none 7 = toString 7) ∧
    Command.image_tag (some "abcdef1234567890") 7 = "abcdef123456" :=
  C8_image_tag "abcdef1234567890" 7

/-- Fixed inputs used to witness the claims about concrete runs. -/
def repoW : Repository :=
  { pk := 1, name := "myapp", url := "https://git.example.com/org/myapp.git",
    branch := "master", username := none, password := none,
    nexus_registry := some "reg.io", nexus_repository := none,
    nexus_username := none, nexus_password := none,
    kubernetes_namespace := "default", kubeconfig := some "KC",
    last_revision := none }

def envW : RunEnv :=
  { clone := ⟨0, "", ""⟩, revParse := ⟨0, "abc123\n", ""⟩, framework := "django",
    dockerfileExists := false, login := ToolRun.ran ⟨0, "lok", ""⟩,
    buildImg := ToolRun.ran ⟨0, "built", ""⟩, push := ToolRun.ran ⟨0, "pushed", ""⟩,
    applyK := ToolRun.ran ⟨0, "applied", ""⟩, manifestOk := true, buildId := 5 }

/-- C6 counterexample: `git rev-parse` exiting nonzero with empty stderr and
stdout `boom` raises the fixed message `Unable to determine repository
revision.`, not the captured stdout. -/
theorem C6_counterexample :
    Command._get_head_revision ⟨1, "boom", ""⟩ =
      Except.error "Unable to determine repository revision." ∧
    "Unable to determine repository revision." ≠ "boom" :=
  ⟨rfl, by decide⟩

/-- C6 (amended): for head-revision resolution, docker login, docker build,
docker push and kubectl apply, a nonzero exit raises a message equal to the
captured stderr (stripped) when that is non-empty, and otherwise a fixed
stage-specific default message — not the captured stdout. -/
theorem C6_error_messages_amended :
    ∀ (repo : Repository) (commit : Option String) (env : RunEnv),
      (∀ p : ProcResult, p.returncode ≠ 0 →
        Command._get_head_revision p =
          Except.error (pyOrS (pyStrip p.stderr) "Unable to determine repository revision.")) ∧
      (∀ p : ProcResult, env.login = ToolRun.ran p → p.returncode ≠ 0 →
        (truthy repo.nexus_username && truthy repo.nexus_password) = true →
        Command._normalize_registry repo.nexus_registry ≠ "" →
        (Command._build_and_push_image repo commit env).2 =
          Except.error (pyOrS (pyStrip p.stderr) "Docker login failed.")) ∧
      (∀ p : ProcResult, env.buildImg = ToolRun.ran p → p.returncode ≠ 0 →
        ((truthy repo.nexus_username && truthy repo.nexus_password) = false ∨
          (∃ q, env.login = ToolRun.ran q ∧ q.returncode = 0)) →
        Command._normalize_registry repo.nexus_registry ≠ "" →
        (Command._build_and_push_image repo commit env).2 =
          Except.error (pyOrS (pyStrip p.stderr) "Docker build failed.")) ∧
      (∀ p : ProcResult, env.push = ToolRun.ran p → p.returncode ≠ 0 →
        ((truthy repo.nexus_username && truthy repo.nexus_password) = false ∨
          (∃ q, env.login = ToolRun.ran q ∧ q.returncode = 0)) →
        (∃ q, env.buildImg = ToolRun.ran q ∧ q.returncode = 0) →
        Command._normalize_registry repo.nexus_registry ≠ "" →
        (Command._build_and_push_image repo commit env).2 =
          Except.error (pyOrS (pyStrip p.stderr) "Docker push failed.")) ∧
      (∀ p : ProcResult, env.applyK = ToolRun.ran p → p.returncode ≠ 0 →
        pyStrip (repo.kubeconfig.getD "") ≠ "" →
        (Command._deploy_to_cluster repo env).2 =
          Except.error (pyOrS (pyStrip p.stderr) "kubectl apply failed.")) := by
  intro repo commit env
  refine ⟨?_, ?_, ?_, ?_, ?_⟩
  · intro p hp
    simp [Command._get_head_revision, hp]
  · intro p hl hp hcred hreg
    simp [Command._build_and_push_image, if_neg hreg, hcred, hl, hp]
  · intro p hb hp hlogin hreg
    by_cases hc : truthy repo.nexus_username = true ∧ truthy repo.nexus_password = true
    · rcases hlogin with hcred | ⟨q, hq, hq0⟩
      · simp [hc.1, hc.2] at hcred
      · simp [Command._build_and_push_image, if_neg hreg, hc, hq, hq0, hb, hp]
    · simp [Command._build_and_push_image, if_neg hreg, hc, hb, hp]
  · intro p hpush hp hlogin hbuild hreg
    rcases hbuild with ⟨q2, hq2, hq20⟩
    by_cases hc : truthy repo.nexus_username = true ∧ truthy repo.nexus_password = true
    · rcases hlogin with hcred | ⟨q, hq, hq0⟩
      · simp [hc.1, hc.2] at hcred
      · simp [Command._build_and_push_image, if_neg hreg, hc, hq, hq0, hq2, hq20, hpush, hp]
    · simp [Command._build_and_push_image, if_neg hreg, hc, hq2, hq20, hpush, hp]
  · intro p ha hp hkc
    simp [Command._deploy_to_cluster, if_neg hkc, ha, hp]

theorem C6_error_messages_amended_witness :
    Command._get_head_revision ⟨1, "out", " err "⟩ =
      Except.error (pyOrS (pyStrip " err ") "Unable to determine repository revision.") ∧
    (Command._build_and_push_image repoW none
        { envW with buildImg := ToolRun.ran ⟨1, "bout", ""⟩ }).2 =
      Except.error (pyOrS (pyStrip "") "Docker build failed.") ∧
    (Command._deploy_to_cluster repoW
        { envW with applyK := ToolRun.ran ⟨1, "aout", ""⟩ }).2 =
      Except.error (pyOrS (pyStrip "") "kubectl apply failed.") := by
  refine ⟨?_, ?_, ?_⟩
  · exact (C6_error_messages_amended repoW none envW).1 ⟨1, "out", " err "⟩ (by decide)
  · exact (C6_error_messages_amended repoW none
      { envW with buildImg := ToolRun.ran ⟨1, "bout", ""⟩ }).2.2.1
      ⟨1, "bout", ""⟩ rfl (by decide) (Or.inl (by decide)) (by decide)
  · exact (C6_error_messages_amended repoW none
      { envW with applyK := ToolRun.ran ⟨1, "aout", ""⟩ }).2.2.2.2
      ⟨1, "aout", ""⟩ rfl (by decide) (by decide)

lemma joinSlashL_ne_nil :
    ∀ l : List (List Char), l ≠ [] → (∀ s ∈ l, s ≠ []) → joinSlashL l ≠ []
  | [], h, _ => absurd rfl h
  | [s], _, hall => by simpa [joinSlashL] using hall s (by simp)
  | s :: s2 :: rest, _, hall => by
    have hs : s ≠ [] := hall s (by simp)
    cases s with
    | nil => exact absurd rfl hs
    | cons c cs => simp [joinSlashL]

lemma extract_repo_slug_ne_empty {url s : String}
    (h : extract_repo_slug url = some s) : s ≠ "" := by
  unfold extract_repo_slug at h
  by_cases hnil : repoSlugSegs url = []
  · simp [hnil] at h
  · rw [if_neg hnil, Option.some.injEq] at h
    have hall : ∀ t ∈ repoSlugSegs url, t ≠ [] := by
      intro t ht
      simp only [repoSlugSegs, List.mem_filter] at ht
      simpa using ht.2
    have hjoin := joinSlashL_ne_nil (repoSlugSegs url) hnil hall
    intro hempty
    rw [← h] at hempty
    exact hjoin (by simpa [String.ext_iff] using hempty)

lemma synthetic_name_ne_empty (n : Nat) : ("repository-" ++ toString n) ≠ "" := by
  intro h
  have := congrArg String.data h
  simp [String.data_append] at this

/-- C5: with no explicit target repository name, the image repository name
is resolved by the chain URL-path slug → display-name slug → synthetic
`repository-<id>`, and is never empty; the URL
`https://git.example.com/org/myapp.git` yields the slug `org/myapp`. -/
theorem C5_repository_name :
    ∀ repo : Repository,
      repo.nexus_repository = none ∨ repo.nexus_repository = some "" →
      (Command.resolve_repository_name repo =
        (match extract_repo_slug repo.url with
         | some derived_slug => derived_slug
         | none => pyOrS (slugify repo.name) ("repository-" ++ toString repo.pk)) ∧
       Command.resolve_repository_name repo ≠ "" ∧
       extract_repo_slug "https://git.example.com/org/myapp.git" = some "org/myapp") := by
  intro repo h
  have hempty : pyStrip (repo.nexus_repository.getD "") = "" := by
    rcases h with h | h <;> simp [h] <;> rfl
  have hchain : Command.resolve_repository_name repo =
      (match extract_repo_slug repo.url with
       | some derived_slug => derived_slug
       | none => pyOrS (slugify repo.name) ("repository-" ++ toString repo.pk)) := by
    unfold Command.resolve_repository_name
    rw [hempty]
    simp
  refine ⟨hchain, ?_, by decide⟩
  rw [hchain]
  cases hx : extract_repo_slug repo.url with
  | some s => exact extract_repo_slug_ne_empty hx
  | none =>
    unfold pyOrS
    by_cases hs : slugify repo.name = ""
    · rw [if_pos hs]; exact synthetic_name_ne_empty repo.pk
    · rw [if_neg hs]; exact hs

theorem C5_repository_name_witness :
    (repoW.nexus_repository = none ∨ repoW.nexus_repository = some "") ∧
    (Command.resolve_repository_name repoW =
      (match extract_repo_slug repoW.url with
       | some derived_slug => derived_slug
       | none => pyOrS (slugify repoW.name) ("repository-" ++ toString repoW.pk)) ∧
     Command.resolve_repository_name repoW ≠ "" ∧
     extract_repo_slug "https://git.example.com/org/myapp.git" = some "org/myapp") :=
  ⟨Or.inl rfl, C5_repository_name repoW (Or.inl rfl)⟩

/-- The event list of `_build_and_push_image` takes one of six shapes,
depending on where the stage stops. -/
lemma bp_events_shape (repo : Repository) (c : Option String) (env : RunEnv) :
    (Command._build_and_push_image repo c env).1 = [] ∨
    (Command._build_and_push_image repo c env).1 = [Event.runTool Tool.dockerLogin] ∨
    (Command._build_and_push_image repo c env).1 = [Event.runTool Tool.dockerBuild] ∨
    (Command._build_and_push_image repo c env).1 =
      [Event.runTool Tool.dockerLogin, Event.runTool Tool.dockerBuild] ∨
    (Command._build_and_push_image repo c env).1 =
      [Event.runTool Tool.dockerBuild, Event.runTool Tool.dockerPush] ∨
    (Command._build_and_push_image repo c env).1 =
      [Event.runTool Tool.dockerLogin, Event.runTool Tool.dockerBuild,
       Event.runTool Tool.dockerPush] := by
  by_cases hreg : Command._normalize_registry repo.nexus_registry = ""
  · exact Or.inl (by simp [Command._build_and_push_image, hreg])
  · by_cases hc : truthy repo.nexus_username = true ∧ truthy repo.nexus_password = true
    · rcases hl : env.login with _ | pl
      · exact Or.inr (Or.inl (by simp [Command._build_and_push_image, hreg, hc, hl]))
      · by_cases hpl : pl.returncode = 0
        · rcases hb : env.buildImg with _ | pb
          · exact Or.inr (Or.inr (Or.inr (Or.inl
              (by simp [Command._build_and_push_image, hreg, hc, hl, hpl, hb]))))
          · by_cases hpb : pb.returncode = 0
            · rcases hp : env.push with _ | pp
              · exact Or.inr (Or.inr (Or.inr (Or.inr (Or.inr
                  (by simp [Command._build_and_push_image, hreg, hc, hl, hpl, hb, hpb, hp])))))
              · exact Or.inr (Or.inr (Or.inr (Or.inr (Or.inr
                  (by simp [Command._build_and_push_image, hreg, hc, hl, hpl, hb, hpb, hp]
                      try (split <;> rfl))))))
            · exact Or.inr (Or.inr (Or.inr (Or.inl
                (by simp [Command._build_and_push_image, hreg, hc, hl, hpl, hb, hpb]))))
        · exact Or.inr (Or.inl
            (by simp [Command._build_and_push_image, hreg, hc, hl, hpl]))
    · rcases hb : env.buildImg with _ | pb
      · exact Or.inr (Or.inr (Or.inl
          (by simp [Command._build_and_push_image, hreg, hc, hb])))
      · by_cases hpb : pb.returncode = 0
        · rcases hp : env.push with _ | pp
          · exact Or.inr (Or.inr (Or.inr (Or.inr (Or.inl
              (by simp [Command._build_and_push_image, hreg, hc, hb, hpb, hp])))))
          · exact Or.inr (Or.inr (Or.inr (Or.inr (Or.inl
              (by simp [Command._build_and_push_image, hreg, hc, hb, hpb, hp]
                  try (split <;> rfl))))))
        · exact Or.inr (Or.inr (Or.inl
            (by simp [Command._build_and_push_image, hreg, hc, hb, hpb])))

/-- Every event emitted by `_build_and_push_image` is a docker tool
invocation. -/
lemma bp_events (repo : Repository) (c : Option String) (env : RunEnv) :
    ∀ e ∈ (Command._build_and_push_image repo c env).1,
      e = Event.runTool Tool.dockerLogin ∨ e = Event.runTool Tool.dockerBuild ∨
      e = Event.runTool Tool.dockerPush := by
  intro e he
  rcases bp_events_shape repo c env with h | h | h | h | h | h <;>
    rw [h] at he <;> simp at he <;> tauto

/-- The event list of `_deploy_to_cluster` is empty (stripped-empty
kubeconfig) or the fixed create/apply/remove sequence, which removes both
ephemeral files right after the apply attempt. -/
lemma dep_events_shape (repo : Repository) (env : RunEnv) :
    (Command._deploy_to_cluster repo env).1 = [] ∨
    (Command._deploy_to_cluster repo env).1 =
      [Event.createTmpFile TmpKind.manifestFile,
       Event.createTmpFile TmpKind.kubeconfigFile,
       Event.runTool Tool.kubectlApply,
       Event.removeTmpFile TmpKind.manifestFile,
       Event.removeTmpFile TmpKind.kubeconfigFile] := by
  by_cases hkc : pyStrip (repo.kubeconfig.getD "") = ""
  · exact Or.inl (by simp [Command._deploy_to_cluster, hkc])
  · rcases ha : env.applyK with _ | pa
    · exact Or.inr (by simp [Command._deploy_to_cluster, hkc, ha])
    · by_cases hpa : pa.returncode = 0
      · exact Or.inr (by simp [Command._deploy_to_cluster, hkc, ha, hpa])
      · exact Or.inr (by simp [Command._deploy_to_cluster, hkc, ha, hpa])

/-- The `finally` block's trace: the workspace removal, one manifest-export
attempt, one Build save, and — exactly when the Build ends `success` with a
truthy commit — the `last_revision` advance. -/
lemma finalize_trace (repo : Repository) (env : RunEnv) (logs : List String)
    (evs : List Event) (b : Build) :
    (Command.finalize repo env logs evs b).trace =
      evs ++ [Event.removeWorkspace, Event.writeManifest env.manifestOk,
              Event.saveBuild b.status] ++
        (if b.status = "success" && truthy b.commit then
          [Event.saveRepoLastRevision (b.commit.getD "")] else []) := by
  by_cases hs : (b.status = "success" && truthy b.commit) = true <;>
    by_cases hm : env.manifestOk = true <;>
    simp [Command.finalize, hs, hm]

/-- The `finally` block only backfills the Build's log. -/
lemma finalize_buildAfter (repo : Repository) (env : RunEnv) (logs : List String)
    (evs : List Event) (b : Build) :
    (Command.finalize repo env logs evs b).buildAfter =
      some { b with log := pyStrip (joinNL (logs ++
        [if env.manifestOk = true then "Manifest exported to " ++ manifestPath repo
         else "Failed to write manifest."])) } := by
  by_cases hs : (b.status = "success" && truthy b.commit) = true <;>
    by_cases hm : env.manifestOk = true <;>
    simp [Command.finalize, hs, hm]

/-- The `finally` block advances `last_revision` exactly when the Build ends
`success` with a truthy commit, and touches nothing else on the repository. -/
lemma finalize_repoAfter (repo : Repository) (env : RunEnv) (logs : List String)
    (evs : List Event) (b : Build) :
    (Command.finalize repo env logs evs b).repoAfter =
      (if b.status = "success" && truthy b.commit then
        { repo with last_revision := some (b.commit.getD "") } else repo) := by
  by_cases hs : (b.status = "success" && truthy b.commit) = true <;>
    by_cases hm : env.manifestOk = true <;>
    simp [Command.finalize, hs, hm]

/-- The events every non-skipped run emits before the image stage. -/
def preEvs (env : RunEnv) : List Event :=
  [Event.runTool Tool.gitClone, Event.runTool Tool.gitRevParse,
   Event.createBuild "running" (some (pyStrip env.revParse.stdout))]

/-- The Build record as created at watch_repos.py lines 56-60. -/
def b0 (env : RunEnv) : Build :=
  { id := env.buildId, status := "running",
    commit := some (pyStrip env.revParse.stdout), image := none, log := "" }

/-- The full temp-file/apply event sequence of `_deploy_to_cluster`. -/
def depEvsFull : List Event :=
  [Event.createTmpFile TmpKind.manifestFile,
   Event.createTmpFile TmpKind.kubeconfigFile,
   Event.runTool Tool.kubectlApply,
   Event.removeTmpFile TmpKind.manifestFile,
   Event.removeTmpFile TmpKind.kubeconfigFile]

/-- An event is a docker tool invocation. -/
def isDockerTool (e : Event) : Prop :=
  e = Event.runTool Tool.dockerLogin ∨ e = Event.runTool Tool.dockerBuild ∨
  e = Event.runTool Tool.dockerPush

/-- Exhaustive shape analysis of the `try` body of a repository run. -/
lemma body_cases (repo : Repository) (env : RunEnv) :
    (env.clone.returncode ≠ 0 ∧ ∃ logs,
      Command.body repo env =
        BodyOutcome.failed logs [Event.runTool Tool.gitClone] none none "Clone failed") ∨
    (env.clone.returncode = 0 ∧ env.revParse.returncode ≠ 0 ∧ ∃ logs msg,
      Command.body repo env =
        BodyOutcome.failed logs [Event.runTool Tool.gitClone, Event.runTool Tool.gitRevParse]
          none none msg) ∨
    (env.clone.returncode = 0 ∧ env.revParse.returncode = 0 ∧
      truthy repo.last_revision = true ∧
      repo.last_revision.getD "" = pyStrip env.revParse.stdout ∧ ∃ logs,
      Command.body repo env =
        BodyOutcome.skipped logs [Event.runTool Tool.gitClone, Event.runTool Tool.gitRevParse]) ∨
    (∃ logs evI msg,
      Command.body repo env =
        BodyOutcome.failed logs (preEvs env ++ evI) (some (b0 env))
          (some (pyStrip env.revParse.stdout)) msg ∧
      (∀ e ∈ evI, isDockerTool e)) ∨
    (truthy repo.kubeconfig = true ∧ ∃ logs evI evD img,
      Command.body repo env =
        BodyOutcome.ok logs
          (preEvs env ++ evI ++ [Event.createDeployment "running"] ++ evD ++
            [Event.saveDeployment "success"])
          { id := env.buildId, status := "success",
            commit := some (pyStrip env.revParse.stdout), image := some img, log := "" } ∧
      (∀ e ∈ evI, isDockerTool e) ∧ (evD = [] ∨ evD = depEvsFull)) ∨
    (truthy repo.kubeconfig = true ∧ ∃ logs evI evD img msg,
      Command.body repo env =
        BodyOutcome.failed logs
          (preEvs env ++ evI ++ [Event.createDeployment "running"] ++ evD ++
            [Event.saveDeployment "failed"])
          (some { id := env.buildId, status := "running",
                  commit := some (pyStrip env.revParse.stdout), image := some img, log := "" })
          (some (pyStrip env.revParse.stdout)) msg ∧
      (∀ e ∈ evI, isDockerTool e) ∧ (evD = [] ∨ evD = depEvsFull)) ∨
    (∃ logs evI imgOpt,
      Command.body repo env =
        BodyOutcome.ok logs (preEvs env ++ evI)
          { id := env.buildId, status := "success",
            commit := some (pyStrip env.revParse.stdout), image := imgOpt, log := "" } ∧
      (∀ e ∈ evI, isDockerTool e) ∧
      ¬(imgOpt.isSome = true ∧ truthy repo.kubeconfig = true)) := by
  by_cases hcl : env.clone.returncode = 0
  · by_cases hrv : env.revParse.returncode = 0
    · by_cases hskip : (truthy repo.last_revision &&
          (repo.last_revision.getD "" == pyStrip env.revParse.stdout)) = true
      · rw [Bool.and_eq_true, beq_iff_eq] at hskip
        exact Or.inr (Or.inr (Or.inl ⟨hcl, hrv, hskip.1, hskip.2,
          ⟨_, by simp [Command.body, Command._get_head_revision, hcl, hrv,
                  hskip.1, hskip.2]; all_goals rfl⟩⟩))
      · by_cases hibc : (truthy repo.nexus_registry &&
            (truthy repo.nexus_repository || repo.name != "")) = true
        · rcases hbp : Command._build_and_push_image repo
              (some (pyStrip env.revParse.stdout)) env with ⟨evI, res⟩
          have hbpe : ∀ e ∈ evI, isDockerTool e := by
            intro e he
            have := bp_events repo (some (pyStrip env.revParse.stdout)) env e
            rw [hbp] at this
            exact this he
          cases res with
          | error msg =>
            exact Or.inr (Or.inr (Or.inr (Or.inl ⟨_, evI, msg,
              by simp [Command.body, Command._get_head_revision, preEvs, b0,
                   hcl, hrv, hskip, hibc, hbp]; all_goals rfl, hbpe⟩)))
          | ok pair =>
            rcases pair with ⟨img, out⟩
            by_cases hkc : truthy repo.kubeconfig = true
            · rcases hdep : Command._deploy_to_cluster repo env with ⟨evD, resD⟩
              have hdsh : evD = [] ∨ evD = depEvsFull := by
                have := dep_events_shape repo env
                rw [hdep] at this
                simpa [depEvsFull] using this
              cases resD with
              | ok m =>
                exact Or.inr (Or.inr (Or.inr (Or.inr (Or.inl
                  ⟨hkc, _, evI, evD, img,
                    by simp [Command.body, Command.afterImage, Command._get_head_revision,
                         preEvs, hcl, hrv, hskip, hibc, hbp, hkc, hdep]; all_goals rfl,
                    hbpe, hdsh⟩))))
              | error msg =>
                exact Or.inr (Or.inr (Or.inr (Or.inr (Or.inr (Or.inl
                  ⟨hkc, _, evI, evD, img, msg,
                    by simp [Command.body, Command.afterImage, Command._get_head_revision,
                         preEvs, hcl, hrv, hskip, hibc, hbp, hkc, hdep]; all_goals rfl,
                    hbpe, hdsh⟩)))))
            · exact Or.inr (Or.inr (Or.inr (Or.inr (Or.inr (Or.inr
                ⟨_, evI, some img,
                  by simp [Command.body, Command.afterImage, Command._get_head_revision,
                       preEvs, hcl, hrv, hskip, hibc, hbp, hkc]; all_goals rfl,
                  hbpe, by simp [hkc]⟩)))))
        · by_cases hkc : truthy repo.kubeconfig = true <;>
            exact Or.inr (Or.inr (Or.inr (Or.inr (Or.inr (Or.inr
              ⟨_, [], none,
                by simp [Command.body, Command.afterImage, Command._get_head_revision,
                     preEvs, hcl, hrv, hskip, hibc, hkc]; all_goals rfl,
                by simp, by simp⟩)))))
    · exact Or.inr (Or.inl ⟨hcl, hrv, _, _,
        by simp [Command.body, Command._get_head_revision, hcl, hrv]
           exact ⟨rfl, rfl⟩⟩)
  · exact Or.inl ⟨hcl, _, by simp [Command.body, hcl]; all_goals rfl⟩

/-- C9: every exit path of a repository run removes the ephemeral clone
workspace, and whenever the deploy stage created its two ephemeral files
(manifest and kubeconfig), both are deleted within the same run. -/
theorem C9_cleanup :
    ∀ (repo : Repository) (env : RunEnv),
      Event.removeWorkspace ∈ (Command.processRepo repo env).trace ∧
      (∀ k, Event.createTmpFile k ∈ (Command.processRepo repo env).trace →
        Event.removeTmpFile k ∈ (Command.processRepo repo env).trace) := by
  intro repo env
  rcases body_cases repo env with
    ⟨hcl, logs, hb⟩ | ⟨hcl, hrv, logs, msg, hb⟩ | ⟨hcl, hrv, htr, hcr, logs, hb⟩ |
    ⟨logs, evI, msg, hb, hbpe⟩ | ⟨hkc, logs, evI, evD, img, hb, hbpe, hdsh⟩ |
    ⟨hkc, logs, evI, evD, img, msg, hb, hbpe, hdsh⟩ | ⟨logs, evI, imgOpt, hb, hbpe, hni⟩
  · refine ⟨by simp [Command.processRepo, hb, finalize_trace], ?_⟩
    intro k hk
    simp [Command.processRepo, hb, finalize_trace] at hk
  · refine ⟨by simp [Command.processRepo, hb, finalize_trace], ?_⟩
    intro k hk
    simp [Command.processRepo, hb, finalize_trace] at hk
  · refine ⟨by simp [Command.processRepo, hb], ?_⟩
    intro k hk
    simp [Command.processRepo, hb] at hk
  · refine ⟨by simp [Command.processRepo, hb, finalize_trace], ?_⟩
    intro k hk
    simp [Command.processRepo, hb, finalize_trace, preEvs] at hk
    have := hbpe _ hk
    simp [isDockerTool] at this
  · refine ⟨by simp [Command.processRepo, hb, finalize_trace], ?_⟩
    intro k hk
    simp [Command.processRepo, hb, finalize_trace, preEvs] at hk
    rcases hk with hk | hk
    · have := hbpe _ hk
      simp [isDockerTool] at this
    · rcases hdsh with h | h
      · simp [h] at hk
      · subst h
        simp [depEvsFull] at hk
        rcases hk with hk | hk <;> subst hk <;>
          simp [Command.processRepo, hb, finalize_trace, depEvsFull]
  · refine ⟨by simp [Command.processRepo, hb, finalize_trace], ?_⟩
    intro k hk
    simp [Command.processRepo, hb, finalize_trace, preEvs] at hk
    rcases hk with hk | hk
    · have := hbpe _ hk
      simp [isDockerTool] at this
    · rcases hdsh with h | h
      · simp [h] at hk
      · subst h
        simp [depEvsFull] at hk
        rcases hk with hk | hk <;> subst hk <;>
          simp [Command.processRepo, hb, finalize_trace, depEvsFull]
  · refine ⟨by simp [Command.processRepo, hb, finalize_trace], ?_⟩
    intro k hk
    simp [Command.processRepo, hb, finalize_trace, preEvs] at hk
    have := hbpe _ hk
    simp [isDockerTool] at this

theorem C9_cleanup_witness :
    Event.removeWorkspace ∈ (Command.processRepo repoW envW).trace ∧
    Event.createTmpFile TmpKind.manifestFile ∈ (Command.processRepo repoW envW).trace ∧
    Event.removeTmpFile TmpKind.manifestFile ∈ (Command.processRepo repoW envW).trace :=
  ⟨(C9_cleanup repoW envW).1, by decide,
    (C9_cleanup repoW envW).2 TmpKind.manifestFile (by decide)⟩

/-- A repository whose stored `last_revision` already equals the head
revision that `envW` resolves. -/
def repoSkip : Repository := { repoW with last_revision := some "abc123" }

/-- The number of manifest-export attempts in a trace. -/
def countManifest : List Event → Nat
  | [] => 0
  | Event.writeManifest _ :: t => countManifest t + 1
  | _ :: t => countManifest t

lemma countManifest_append (a b : List Event) :
    countManifest (a ++ b) = countManifest a + countManifest b := by
  induction a with
  | nil => simp [countManifest]
  | cons e t ih => cases e <;> (simp [countManifest, ih]; try omega)

lemma countManifest_evI {evI : List Event} (h : ∀ e ∈ evI, isDockerTool e) :
    countManifest evI = 0 := by
  induction evI with
  | nil => rfl
  | cons e t ih =>
    rcases h e (by simp) with h' | h' | h' <;> subst h' <;>
      exact (by simpa [countManifest] using ih (fun x hx => h x (by simp [hx])))

lemma countManifest_evD {evD : List Event} (h : evD = [] ∨ evD = depEvsFull) :
    countManifest evD = 0 := by
  rcases h with h | h <;> subst h <;> rfl

/-- C4 counterexample: a run skipped as unchanged (stored `last_revision`
equals the resolved head) performs no manifest export at all (the claimed
"exactly once per run" fails). -/
theorem C4_counterexample :
    countManifest (Command.processRepo repoSkip envW).trace = 0 ∧
    (Command.processRepo repoSkip envW).buildAfter = none := by
  exact ⟨rfl, rfl⟩

/-- C4 (amended): every run that holds a Build record (every run except
those skipped as unchanged) attempts the manifest export exactly once, and
the export's own failure never changes the Build's status; a run skipped as
unchanged performs no manifest export. -/
theorem C4_manifest_amended :
    ∀ (repo : Repository) (env : RunEnv),
      ((Command.processRepo repo env).buildAfter = none →
        countManifest (Command.processRepo repo env).trace = 0) ∧
      ((Command.processRepo repo env).buildAfter ≠ none →
        countManifest (Command.processRepo repo env).trace = 1) ∧
      (∀ v : Bool,
        ((Command.processRepo repo { env with manifestOk := v }).buildAfter.map
            Build.status) =
          ((Command.processRepo repo env).buildAfter.map Build.status)) := by
  intro repo env
  have hstat : ∀ v : Bool,
      ((Command.processRepo repo { env with manifestOk := v }).buildAfter.map
          Build.status) =
        ((Command.processRepo repo env).buildAfter.map Build.status) := by
    intro v
    have hbeq : Command.body repo { env with manifestOk := v } =
        Command.body repo env := rfl
    rcases hbody : Command.body repo env with ⟨l, e⟩ | ⟨l, e, b⟩ | ⟨l, e, bo, c, m⟩
    · simp [Command.processRepo, hbeq, hbody]
    · simp [Command.processRepo, hbeq, hbody, finalize_buildAfter]
    · cases bo <;> simp [Command.processRepo, hbeq, hbody, finalize_buildAfter]
  rcases body_cases repo env with
    ⟨hcl, logs, hb⟩ | ⟨hcl, hrv, logs, msg, hb⟩ | ⟨hcl, hrv, htr, hcr, logs, hb⟩ |
    ⟨logs, evI, msg, hb, hbpe⟩ | ⟨hkc, logs, evI, evD, img, hb, hbpe, hdsh⟩ |
    ⟨hkc, logs, evI, evD, img, msg, hb, hbpe, hdsh⟩ | ⟨logs, evI, imgOpt, hb, hbpe, hni⟩
  · exact ⟨by simp [Command.processRepo, hb, finalize_buildAfter],
      fun _ => by
        simp [Command.processRepo, hb, finalize_trace, countManifest_append,
          countManifest, apply_ite countManifest],
      hstat⟩
  · exact ⟨by simp [Command.processRepo, hb, finalize_buildAfter],
      fun _ => by
        simp [Command.processRepo, hb, finalize_trace, countManifest_append,
          countManifest, apply_ite countManifest],
      hstat⟩
  · exact ⟨fun _ => by
        simp [Command.processRepo, hb, countManifest_append, countManifest],
      by simp [Command.processRepo, hb],
      hstat⟩
  · refine ⟨by simp [Command.processRepo, hb, finalize_buildAfter], fun _ => ?_, hstat⟩
    simp [Command.processRepo, hb, finalize_trace, countManifest_append,
      countManifest, apply_ite countManifest, preEvs, countManifest_evI hbpe]
  · refine ⟨by simp [Command.processRepo, hb, finalize_buildAfter], fun _ => ?_, hstat⟩
    simp [Command.processRepo, hb, finalize_trace, countManifest_append,
      countManifest, apply_ite countManifest, preEvs,
      countManifest_evI hbpe, countManifest_evD hdsh]
  · refine ⟨by simp [Command.processRepo, hb, finalize_buildAfter], fun _ => ?_, hstat⟩
    simp [Command.processRepo, hb, finalize_trace, countManifest_append,
      countManifest, apply_ite countManifest, preEvs,
      countManifest_evI hbpe, countManifest_evD hdsh]
  · refine ⟨by simp [Command.processRepo, hb, finalize_buildAfter], fun _ => ?_, hstat⟩
    simp [Command.processRepo, hb, finalize_trace, countManifest_append,
      countManifest, apply_ite countManifest, preEvs, countManifest_evI hbpe]

theorem C4_manifest_amended_witness :
    ((Command.processRepo repoW envW).buildAfter = none →
      countManifest (Command.processRepo repoW envW).trace = 0) ∧
    ((Command.processRepo repoW envW).buildAfter ≠ none →
      countManifest (Command.processRepo repoW envW).trace = 1) ∧
    (∀ v : Bool,
      ((Command.processRepo repoW { envW with manifestOk := v }).buildAfter.map
          Build.status) =
        ((Command.processRepo repoW envW).buildAfter.map Build.status)) :=
  C4_manifest_amended repoW envW

/-- A repository with neither registry nor kubeconfig configured. -/
def repoC1 : Repository := { repoW with nexus_registry := none, kubeconfig := none }

/-- An environment where `git rev-parse HEAD` succeeds with empty output. -/
def envC1 : RunEnv := { envW with revParse := ⟨0, "", ""⟩ }

lemma evI_no_saveRepo {evI : List Event} (h : ∀ e ∈ evI, isDockerTool e) :
    ∀ rev, Event.saveRepoLastRevision rev ∉ evI := by
  intro rev hm
  rcases h _ hm with h' | h' | h' <;> simp at h'

lemma evD_no_saveRepo {evD : List Event} (h : evD = [] ∨ evD = depEvsFull) :
    ∀ rev, Event.saveRepoLastRevision rev ∉ evD := by
  rcases h with h | h <;> subst h <;> simp [depEvsFull]

/-- C1 counterexample: when every optional stage is skipped and the resolved
head revision is the empty string, the Build ends with final status
`success`, yet `last_revision` is not updated (the trace has no
`last_revision` write and the repository is unchanged). -/
theorem C1_counterexample :
    (Command.processRepo repoC1 envC1).buildAfter.map Build.status = some "success" ∧
    (Command.processRepo repoC1 envC1).repoAfter.last_revision = none ∧
    (Command.processRepo repoC1 envC1).trace =
      [Event.runTool Tool.gitClone, Event.runTool Tool.gitRevParse,
       Event.createBuild "running" (some ""), Event.removeWorkspace,
       Event.writeManifest true, Event.saveBuild "success"] := by
  exact ⟨rfl, rfl, rfl⟩

/-- C1 (amended): `last_revision` is written exactly when the run's Build
reaches final status `success` with a non-empty commit revision, and is then
set to that revision; on every other path the repository record is left
unchanged — `Command.processRepo` is the sole write path. -/
theorem C1_last_revision_amended :
    ∀ (repo : Repository) (env : RunEnv),
      (∀ rev, Event.saveRepoLastRevision rev ∈ (Command.processRepo repo env).trace ↔
        (∃ b, (Command.processRepo repo env).buildAfter = some b ∧
          b.status = "success" ∧ b.commit = some rev ∧ rev ≠ "")) ∧
      ((Command.processRepo repo env).repoAfter =
        (match (Command.processRepo repo env).buildAfter with
         | some b =>
           if b.status = "success" && truthy b.commit then
             { repo with last_revision := b.commit }
           else repo
         | none => repo)) := by
  intro repo env
  rcases body_cases repo env with
    ⟨hcl, logs, hb⟩ | ⟨hcl, hrv, logs, msg, hb⟩ | ⟨hcl, hrv, htr, hcr, logs, hb⟩ |
    ⟨logs, evI, msg, hb, hbpe⟩ | ⟨hkc, logs, evI, evD, img, hb, hbpe, hdsh⟩ |
    ⟨hkc, logs, evI, evD, img, msg, hb, hbpe, hdsh⟩ | ⟨logs, evI, imgOpt, hb, hbpe, hni⟩
  · constructor
    · intro rev
      simp [Command.processRepo, hb, finalize_trace, finalize_buildAfter, truthy]
    · simp [Command.processRepo, hb, finalize_repoAfter, finalize_buildAfter, truthy]
  · constructor
    · intro rev
      simp [Command.processRepo, hb, finalize_trace, finalize_buildAfter, truthy]
    · simp [Command.processRepo, hb, finalize_repoAfter, finalize_buildAfter, truthy]
  · constructor
    · intro rev
      simp [Command.processRepo, hb]
    · simp [Command.processRepo, hb]
  · constructor
    · intro rev
      simp [Command.processRepo, hb, finalize_trace, finalize_buildAfter, b0, preEvs,
        evI_no_saveRepo hbpe rev, truthy]
    · simp [Command.processRepo, hb, finalize_repoAfter, finalize_buildAfter, b0, truthy]
  · constructor
    · intro rev
      by_cases hcv : pyStrip env.revParse.stdout = ""
      · simp [Command.processRepo, hb, finalize_trace, finalize_buildAfter, preEvs,
          evI_no_saveRepo hbpe rev, evD_no_saveRepo hdsh rev, truthy, hcv]
        exact fun h => h.symm
      · simp [Command.processRepo, hb, finalize_trace, finalize_buildAfter, preEvs,
          evI_no_saveRepo hbpe rev, evD_no_saveRepo hdsh rev, truthy, hcv]
        refine ⟨fun h => ⟨h.symm, ?_⟩, fun h => h.1.symm⟩
        intro h0
        rw [h0] at h
        exact hcv h.symm
    · by_cases hcv : pyStrip env.revParse.stdout = "" <;>
        simp [Command.processRepo, hb, finalize_repoAfter, finalize_buildAfter, truthy, hcv]
  · constructor
    · intro rev
      simp [Command.processRepo, hb, finalize_trace, finalize_buildAfter, preEvs,
        evI_no_saveRepo hbpe rev, evD_no_saveRepo hdsh rev, truthy]
    · simp [Command.processRepo, hb, finalize_repoAfter, finalize_buildAfter, truthy]
  · constructor
    · intro rev
      by_cases hcv : pyStrip env.revParse.stdout = ""
      · simp [Command.processRepo, hb, finalize_trace, finalize_buildAfter, preEvs,
          evI_no_saveRepo hbpe rev, truthy, hcv]
        exact fun h => h.symm
      · simp [Command.processRepo, hb, finalize_trace, finalize_buildAfter, preEvs,
          evI_no_saveRepo hbpe rev, truthy, hcv]
        refine ⟨fun h => ⟨h.symm, ?_⟩, fun h => h.1.symm⟩
        intro h0
        rw [h0] at h
        exact hcv h.symm
    · by_cases hcv : pyStrip env.revParse.stdout = "" <;>
        simp [Command.processRepo, hb, finalize_repoAfter, finalize_buildAfter, truthy, hcv]

/-- A repository whose stored `last_revision` is the empty string. -/
def repoC2 : Repository := { repoC1 with last_revision := some "" }

/-- C2 counterexample: with stored `last_revision` equal to the empty string
and a successfully resolved head revision that is also empty, the resolved
head equals the stored `last_revision`, yet a Build record is created (the
skip guard additionally requires a truthy stored revision). -/
theorem C2_counterexample :
    repoC2.last_revision = some (pyStrip envC1.revParse.stdout) ∧
    envC1.clone.returncode = 0 ∧ envC1.revParse.returncode = 0 ∧
    (Command.processRepo repoC2 envC1).buildAfter.isSome = true ∧
    Event.createBuild "running" (some "") ∈ (Command.processRepo repoC2 envC1).trace := by
  exact ⟨rfl, rfl, rfl, rfl, by decide⟩

/-- C2 (amended): whenever the resolved head revision equals a *non-empty*
stored `last_revision`, the run creates no Build record, invokes no docker
or kubectl tool (its whole trace is the two git invocations and the
workspace removal), leaves the repository unchanged, and the orchestrator
continues with the next repository. -/
theorem C2_skip_amended :
    ∀ (repo : Repository) (env : RunEnv) (rest : List (Repository × RunEnv)),
      env.clone.returncode = 0 → env.revParse.returncode = 0 →
      truthy repo.last_revision = true →
      repo.last_revision = some (pyStrip env.revParse.stdout) →
      (Command.processRepo repo env).trace =
        [Event.runTool Tool.gitClone, Event.runTool Tool.gitRevParse,
         Event.removeWorkspace] ∧
      (Command.processRepo repo env).buildAfter = none ∧
      (Command.processRepo repo env).repoAfter = repo ∧
      Command.handle ((repo, env) :: rest) =
        Command.processRepo repo env :: Command.handle rest := by
  intro repo env rest hcl hrv htr hlr
  have hb : Command.body repo env =
      BodyOutcome.skipped
        (["Git URL: " ++ repo.url, "Branch: " ++ repo.branch, "Cloning repository...",
          "Repository cloned successfully.",
          "Latest commit: " ++ pyStrip env.revParse.stdout])
        [Event.runTool Tool.gitClone, Event.runTool Tool.gitRevParse] := by
    rw [hlr] at htr
    simp [Command.body, Command._get_head_revision, hcl, hrv, hlr, htr]
  exact ⟨by simp [Command.processRepo, hb], by simp [Command.processRepo, hb],
    by simp [Command.processRepo, hb], rfl⟩

theorem C2_skip_amended_witness :
    envW.clone.returncode = 0 ∧ envW.revParse.returncode = 0 ∧
    truthy repoSkip.last_revision = true ∧
    repoSkip.last_revision = some (pyStrip envW.revParse.stdout) ∧
    ((Command.processRepo repoSkip envW).trace =
      [Event.runTool Tool.gitClone, Event.runTool Tool.gitRevParse,
       Event.removeWorkspace] ∧
     (Command.processRepo repoSkip envW).buildAfter = none ∧
     (Command.processRepo repoSkip envW).repoAfter = repoSkip ∧
     Command.handle [(repoSkip, envW)] =
       Command.processRepo repoSkip envW :: Command.handle []) :=
  ⟨rfl, rfl, by decide, by decide,
    C2_skip_amended repoSkip envW [] rfl rfl (by decide) (by decide)⟩

/-- The number of Deployment-record creations in a trace. -/
def countCreateDep : List Event → Nat
  | [] => 0
  | Event.createDeployment _ :: t => countCreateDep t + 1
  | _ :: t => countCreateDep t

/-- The number of Deployment-status saves in a trace. -/
def countSaveDep : List Event → Nat
  | [] => 0
  | Event.saveDeployment _ :: t => countSaveDep t + 1
  | _ :: t => countSaveDep t

lemma countCreateDep_append (a b : List Event) :
    countCreateDep (a ++ b) = countCreateDep a + countCreateDep b := by
  induction a with
  | nil => simp [countCreateDep]
  | cons e t ih => cases e <;> (simp [countCreateDep, ih]; try omega)

lemma countSaveDep_append (a b : List Event) :
    countSaveDep (a ++ b) = countSaveDep a + countSaveDep b := by
  induction a with
  | nil => simp [countSaveDep]
  | cons e t ih => cases e <;> (simp [countSaveDep, ih]; try omega)

lemma countCreateDep_evI {evI : List Event} (h : ∀ e ∈ evI, isDockerTool e) :
    countCreateDep evI = 0 := by
  induction evI with
  | nil => rfl
  | cons e t ih =>
    rcases h e (by simp) with h' | h' | h' <;> subst h' <;>
      exact (by simpa [countCreateDep] using ih (fun x hx => h x (by simp [hx])))

lemma countSaveDep_evI {evI : List Event} (h : ∀ e ∈ evI, isDockerTool e) :
    countSaveDep evI = 0 := by
  induction evI with
  | nil => rfl
  | cons e t ih =>
    rcases h e (by simp) with h' | h' | h' <;> subst h' <;>
      exact (by simpa [countSaveDep] using ih (fun x hx => h x (by simp [hx])))

lemma countCreateDep_evD {evD : List Event} (h : evD = [] ∨ evD = depEvsFull) :
    countCreateDep evD = 0 := by
  rcases h with h | h <;> subst h <;> rfl

lemma countSaveDep_evD {evD : List Event} (h : evD = [] ∨ evD = depEvsFull) :
    countSaveDep evD = 0 := by
  rcases h with h | h <;> subst h <;> rfl

lemma evI_no_event {evI : List Event} (h : ∀ e ∈ evI, isDockerTool e) {e : Event}
    (hnd : ¬ isDockerTool e) : e ∉ evI := by
  intro hm
  exact hnd (h e hm)

lemma evD_no_event {evD : List Event} (h : evD = [] ∨ evD = depEvsFull) :
    (∀ ok : Bool, Event.writeManifest ok ∉ evD) ∧
    (∀ s, Event.saveBuild s ∉ evD) ∧
    (∀ s, Event.createDeployment s ∉ evD) := by
  rcases h with h | h <;> subst h <;> simp [depEvsFull]

/-- C3: the deploy stage is attempted exactly when an image reference exists
(the Build carries one) and the repository's kubeconfig text is truthy; when
attempted, the Deployment record is created with status `running` before any
kubectl-apply invocation, transitions to exactly one of `success`/`failed`
(exactly one creation, exactly one status save), and that status save is
persisted before the end-of-run manifest export and Build save. -/
theorem C3_deploy_stage :
    ∀ (repo : Repository) (env : RunEnv),
      (Event.createDeployment "running" ∈ (Command.processRepo repo env).trace ↔
        (truthy repo.kubeconfig = true ∧
          ∃ b img, (Command.processRepo repo env).buildAfter = some b ∧
            b.image = some img)) ∧
      (Event.createDeployment "running" ∈ (Command.processRepo repo env).trace →
        ∃ t₁ t₂ t₃ st,
          (Command.processRepo repo env).trace =
            t₁ ++ Event.createDeployment "running" ::
              (t₂ ++ Event.saveDeployment st :: t₃) ∧
          (st = "success" ∨ st = "failed") ∧
          Event.runTool Tool.kubectlApply ∉ t₁ ∧
          (∀ ok : Bool, Event.writeManifest ok ∉ t₁ ++ t₂) ∧
          (∀ s, Event.saveBuild s ∉ t₁ ++ t₂) ∧
          countCreateDep (Command.processRepo repo env).trace = 1 ∧
          countSaveDep (Command.processRepo repo env).trace = 1) := by
  intro repo env
  rcases body_cases repo env with
    ⟨hcl, logs, hb⟩ | ⟨hcl, hrv, logs, msg, hb⟩ | ⟨hcl, hrv, htr, hcr, logs, hb⟩ |
    ⟨logs, evI, msg, hb, hbpe⟩ | ⟨hkc, logs, evI, evD, img, hb, hbpe, hdsh⟩ |
    ⟨hkc, logs, evI, evD, img, msg, hb, hbpe, hdsh⟩ | ⟨logs, evI, imgOpt, hb, hbpe, hni⟩
  · constructor
    · simp [Command.processRepo, hb, finalize_trace, finalize_buildAfter]
    · intro h
      simp [Command.processRepo, hb, finalize_trace] at h
  · constructor
    · simp [Command.processRepo, hb, finalize_trace, finalize_buildAfter]
    · intro h
      simp [Command.processRepo, hb, finalize_trace] at h
  · constructor
    · simp [Command.processRepo, hb]
    · intro h
      simp [Command.processRepo, hb] at h
  · have hni' : Event.createDeployment "running" ∉ evI :=
      evI_no_event hbpe (by simp [isDockerTool])
    constructor
    · simp [Command.processRepo, hb, finalize_trace, finalize_buildAfter, preEvs, b0, hni']
    · intro h
      simp [Command.processRepo, hb, finalize_trace, preEvs, hni'] at h
  · -- deploy attempted, apply success
    have hT := finalize_trace repo env
    have hcd : Event.createDeployment "running" ∈ (Command.processRepo repo env).trace := by
      simp [Command.processRepo, hb, finalize_trace]
    refine ⟨⟨fun _ => ⟨hkc, ?_⟩, fun _ => hcd⟩, fun _ => ?_⟩
    · exact ⟨_, img, by simp [Command.processRepo, hb, finalize_buildAfter]; rfl, rfl⟩
    · refine ⟨preEvs env ++ evI, evD,
        [Event.saveDeployment "success"].tail ++
          ([Event.removeWorkspace, Event.writeManifest env.manifestOk,
            Event.saveBuild "success"] ++
           (if ("success" = "success" && truthy (some (pyStrip env.revParse.stdout))) = true
            then [Event.saveRepoLastRevision
              ((some (pyStrip env.revParse.stdout)).getD "")] else [])),
        "success", ?_, Or.inl rfl, ?_, ?_, ?_, ?_, ?_⟩
      · simp [Command.processRepo, hb, finalize_trace]
      · simp [preEvs, evI_no_event hbpe (e := Event.runTool Tool.kubectlApply)
          (by simp [isDockerTool])]
      · intro ok
        simp [preEvs, evI_no_event hbpe (e := Event.writeManifest ok)
          (by simp [isDockerTool]), (evD_no_event hdsh).1 ok]
      · intro s
        simp [preEvs, evI_no_event hbpe (e := Event.saveBuild s)
          (by simp [isDockerTool]), (evD_no_event hdsh).2.1 s]
      · simp [Command.processRepo, hb, finalize_trace, countCreateDep_append,
          countCreateDep, apply_ite countCreateDep, preEvs,
          countCreateDep_evI hbpe, countCreateDep_evD hdsh]
      · simp [Command.processRepo, hb, finalize_trace, countSaveDep_append,
          countSaveDep, apply_ite countSaveDep, preEvs,
          countSaveDep_evI hbpe, countSaveDep_evD hdsh]
  · -- deploy attempted, apply failed
    have hcd : Event.createDeployment "running" ∈ (Command.processRepo repo env).trace := by
      simp [Command.processRepo, hb, finalize_trace]
    refine ⟨⟨fun _ => ⟨hkc, ?_⟩, fun _ => hcd⟩, fun _ => ?_⟩
    · exact ⟨_, img, by simp [Command.processRepo, hb, finalize_buildAfter]; rfl, rfl⟩
    · refine ⟨preEvs env ++ evI, evD,
        [Event.removeWorkspace, Event.writeManifest env.manifestOk,
         Event.saveBuild "failed"],
        "failed", ?_, Or.inr rfl, ?_, ?_, ?_, ?_, ?_⟩
      · simp [Command.processRepo, hb, finalize_trace]
      · simp [preEvs, evI_no_event hbpe (e := Event.runTool Tool.kubectlApply)
          (by simp [isDockerTool])]
      · intro ok
        simp [preEvs, evI_no_event hbpe (e := Event.writeManifest ok)
          (by simp [isDockerTool]), (evD_no_event hdsh).1 ok]
      · intro s
        simp [preEvs, evI_no_event hbpe (e := Event.saveBuild s)
          (by simp [isDockerTool]), (evD_no_event hdsh).2.1 s]
      · simp [Command.processRepo, hb, finalize_trace, countCreateDep_append,
          countCreateDep, apply_ite countCreateDep, preEvs,
          countCreateDep_evI hbpe, countCreateDep_evD hdsh]
      · simp [Command.processRepo, hb, finalize_trace, countSaveDep_append,
          countSaveDep, apply_ite countSaveDep, preEvs,
          countSaveDep_evI hbpe, countSaveDep_evD hdsh]
  · have hni' : Event.createDeployment "running" ∉ evI :=
      evI_no_event hbpe (by simp [isDockerTool])
    constructor
    · constructor
      · intro h
        simp [Command.processRepo, hb, finalize_trace, preEvs, hni'] at h
      · rintro ⟨hkct, b, img, hba, hbi⟩
        simp [Command.processRepo, hb, finalize_buildAfter] at hba
        rw [← hba] at hbi
        simp at hbi
        exact absurd ⟨by simp [hbi], hkct⟩ hni
    · intro h
      simp [Command.processRepo, hb, finalize_trace, preEvs, hni'] at h

theorem C3_deploy_stage_witness :
    (Event.createDeployment "running" ∈ (Command.processRepo repoW envW).trace ↔
      (truthy repoW.kubeconfig = true ∧
        ∃ b img, (Command.processRepo repoW envW).buildAfter = some b ∧
          b.image = some img)) ∧
    (Event.createDeployment "running" ∈ (Command.processRepo repoW envW).trace →
      ∃ t₁ t₂ t₃ st,
        (Command.processRepo repoW envW).trace =
          t₁ ++ Event.createDeployment "running" ::
            (t₂ ++ Event.saveDeployment st :: t₃) ∧
        (st = "success" ∨ st = "failed") ∧
        Event.runTool Tool.kubectlApply ∉ t₁ ∧
        (∀ ok : Bool, Event.writeManifest ok ∉ t₁ ++ t₂) ∧
        (∀ s, Event.saveBuild s ∉ t₁ ++ t₂) ∧
        countCreateDep (Command.processRepo repoW envW).trace = 1 ∧
        countSaveDep (Command.processRepo repoW envW).trace = 1) :=
  C3_deploy_stage repoW envW
